import Mathlib

/-
Shallow embedding of the statediff dispatch service (src/statediff/service.go).
External collaborators (block lookup, diff builder, RLP encoder, subscriber
channel readiness) are parameters gathered in `Env`; the service state and the
operations on it are translated from the Go source. Channels are modelled by
a readiness oracle (`payloadOk` / `quitOk`: does a non-blocking send succeed)
plus logs of the messages actually delivered.
-/

deriving instance DecidableEq for Except

namespace Statediff

/-- Block carries the fields of types.Block that service.go reads: hash,
parent hash, number and state root (all abstracted to Nat). -/
structure Block where
  hash : Nat
  parentHash : Nat
  number : Nat
  root : Nat
deriving DecidableEq, Repr

/-- ChainEvent as read by Service.Loop: it carries one committed block. -/
structure ChainEvent where
  block : Block
deriving DecidableEq, Repr

/-- StateDiff as used by service.go: block number, block hash, and the
account-delta content. The account fields live in builder.go (outside the
service source); service.go only ever builds the value with them zeroed
(getEmptyStateDiffRlpForBlock), so they are abstracted to one list. -/
structure StateDiff where
  BlockNumber : Nat
  BlockHash : Nat
  accountDiffs : List (Nat × Nat)
deriving DecidableEq, Repr

/-- Payload delivered to subscribers: encoded diff plus optional encoded
block and receipts (populated only when StreamBlock is set). -/
structure Payload where
  BlockRlp : List Nat
  StateDiffRlp : List Nat
  ReceiptsRlp : List Nat
deriving DecidableEq, Repr

/-- Subscription: a payload sink and a control (quit) sink, identified by
channel ids; the readiness oracle in `Env` is keyed by these ids. -/
structure Subscription where
  PayloadChan : Nat
  QuitChan : Nat
deriving DecidableEq, Repr

/-- Env bundles the external collaborators of the service: ledger accessor,
diff builder, deterministic encoders, and the channel readiness oracles
(whether a non-blocking send on a given channel id succeeds). -/
structure Env where
  getBlockByHash : Nat → Option Block
  BuildStateDiff : Nat → Nat → Nat → Nat → Except String StateDiff
  encodeStateDiff : StateDiff → Except String (List Nat)
  encodeBlock : Block → Except String (List Nat)
  getReceiptsByHash : Nat → Nat
  encodeReceipts : Nat → Except String (List Nat)
  payloadOk : Nat → Bool
  quitOk : Nat → Bool

/-- ServiceState: the mutable fields of statediff.Service. `subscribers` is
the int32 activity flag, `Subscriptions` the id → Subscription map (as an
association list with unique keys), `lastBlock` the single-slot cache,
`quitClosed` whether close(QuitChan) has run. -/
structure ServiceState where
  Subscriptions : List (Nat × Subscription)
  subscribers : Nat
  lastBlock : Option Block
  StreamBlock : Bool
  quitClosed : Bool
deriving DecidableEq, Repr

/-- NewStateDiffService: fresh service state (empty map, flag 0, open quit
channel, no cached block). -/
def NewStateDiffService (streamBlock : Bool) : ServiceState :=
  { Subscriptions := []
    subscribers := 0
    lastBlock := none
    StreamBlock := streamBlock
    quitClosed := false }

/-- Subscribe: CompareAndSwapInt32(&subscribers, 0, 1), then (under the lock)
Subscriptions[id] = sub (insert-or-overwrite). -/
def Subscribe (s : ServiceState) (id : Nat) (sub : Subscription) : ServiceState :=
  { s with
    subscribers := if s.subscribers = 0 then 1 else s.subscribers
    Subscriptions := (id, sub) :: s.Subscriptions.filter (fun e => e.1 != id) }

/-- UnsubscribeResult: the state and error outcome of Unsubscribe together
with whether the embedded mutex is still held at the return point (the Go
code takes sds.Lock() and the not-found path returns without sds.Unlock()). -/
structure UnsubscribeResult where
  state : ServiceState
  result : Except String Unit
  lockHeldAtReturn : Bool
deriving DecidableEq, Repr

/-- Unsubscribe: under the lock, error if the id is absent (this early return
skips Unlock), otherwise delete the entry and, if the map became empty,
CompareAndSwapInt32(&subscribers, 1, 0); then Unlock. -/
def Unsubscribe (s : ServiceState) (id : Nat) : UnsubscribeResult :=
  if (s.Subscriptions.find? (fun e => e.1 == id)).isSome then
    let subs := s.Subscriptions.filter (fun e => e.1 != id)
    let flag :=
      if subs.isEmpty then (if s.subscribers = 1 then 0 else s.subscribers)
      else s.subscribers
    { state := { s with Subscriptions := subs, subscribers := flag }
      result := Except.ok ()
      lockHeldAtReturn := false }
  else
    { state := s
      result := Except.error "cannot unsubscribe; subscription for id does not exist"
      lockHeldAtReturn := true }

/-- Stop: close(sds.QuitChan). Closing an already-closed Go channel panics;
the panic is modelled as the error case. -/
def Stop (s : ServiceState) : Except String ServiceState :=
  if s.quitClosed then Except.error "close of closed channel"
  else Except.ok { s with quitClosed := true }

/-- FanoutAcc: what one pass of send's range loop produces — the entries kept
in the map, the payloads delivered, the ids whose quit channel was attempted,
and the ids whose quit signal actually went through. -/
structure FanoutAcc where
  kept : List (Nat × Subscription)
  deliveries : List (Nat × Payload)
  quitAttempts : List Nat
  quitDelivered : List Nat
deriving DecidableEq, Repr

/-- sendLoop: the body of send's range over Subscriptions. A non-blocking
payload send that succeeds keeps the entry and records a delivery; one that
fails attempts a non-blocking quit signal and deletes the entry. -/
def sendLoop (env : Env) (payload : Payload) : List (Nat × Subscription) → FanoutAcc
  | [] => ⟨[], [], [], []⟩
  | (id, sub) :: rest =>
    let acc := sendLoop env payload rest
    if env.payloadOk sub.PayloadChan then
      ⟨(id, sub) :: acc.kept, (id, payload) :: acc.deliveries,
        acc.quitAttempts, acc.quitDelivered⟩
    else
      ⟨acc.kept, acc.deliveries, id :: acc.quitAttempts,
        if env.quitOk sub.QuitChan then id :: acc.quitDelivered else acc.quitDelivered⟩

/-- SendResult: registry and flag after send, plus the delivery logs. -/
structure SendResult where
  Subscriptions : List (Nat × Subscription)
  subscribers : Nat
  deliveries : List (Nat × Payload)
  quitAttempts : List Nat
  quitDelivered : List Nat
deriving DecidableEq, Repr

/-- send: fan the payload out to every subscription, evicting the ones whose
payload channel is not ready, and if the map is empty afterwards run
CompareAndSwapInt32(&subscribers, 1, 0). -/
def send (env : Env) (s : ServiceState) (payload : Payload) : SendResult :=
  let acc := sendLoop env payload s.Subscriptions
  { Subscriptions := acc.kept
    subscribers :=
      if acc.kept.isEmpty then (if s.subscribers = 1 then 0 else s.subscribers)
      else s.subscribers
    deliveries := acc.deliveries
    quitAttempts := acc.quitAttempts
    quitDelivered := acc.quitDelivered }

/-- closeLoop: the body of close's range — one non-blocking quit attempt per
entry, every entry deleted. Returns (ids attempted, ids whose signal landed). -/
def closeLoop (env : Env) : List (Nat × Subscription) → List Nat × List Nat
  | [] => ([], [])
  | (id, sub) :: rest =>
    let acc := closeLoop env rest
    (id :: acc.1, if env.quitOk sub.QuitChan then id :: acc.2 else acc.2)

/-- CloseResult: registry and flag after close, plus the quit-signal logs. -/
structure CloseResult where
  Subscriptions : List (Nat × Subscription)
  subscribers : Nat
  quitAttempts : List Nat
  quitDelivered : List Nat
deriving DecidableEq, Repr

/-- close: attempt a non-blocking quit signal to every subscription and
delete all of them. The Go body never touches sds.subscribers. -/
def close (env : Env) (s : ServiceState) : CloseResult :=
  let acc := closeLoop env s.Subscriptions
  { Subscriptions := []
    subscribers := s.subscribers
    quitAttempts := acc.1
    quitDelivered := acc.2 }

/-- getEmptyStateDiffRlpForBlock: encode a StateDiff carrying only the
block's number and hash (account fields zero-valued). -/
def getEmptyStateDiffRlpForBlock (env : Env) (block : Block) : Except String (List Nat) :=
  env.encodeStateDiff
    { BlockNumber := block.number, BlockHash := block.hash, accountDiffs := [] }

/-- isEmptyPayload: compare the payload's diff bytes with the canonical
empty-diff encoding; returns (isEmpty, errorOccurred) — on an encoding error
the Go function returns (false, err). -/
def isEmptyPayload (env : Env) (payload : Payload) (block : Block) : Bool × Bool :=
  match getEmptyStateDiffRlpForBlock env block with
  | Except.error _ => (false, true)
  | Except.ok bs => (payload.StateDiffRlp == bs, false)

/-- assemblePayload: the payload construction inside processStateDiff — the
diff bytes always, plus the encoded block and receipts when StreamBlock is
set (either encoding error aborts processStateDiff). -/
def assemblePayload (env : Env) (s : ServiceState) (currentBlock : Block)
    (stateDiffRlp : List Nat) : Except String Payload :=
  if s.StreamBlock then
    match env.encodeBlock currentBlock with
    | Except.error e => Except.error e
    | Except.ok blockRlp =>
      match env.encodeReceipts (env.getReceiptsByHash currentBlock.hash) with
      | Except.error e => Except.error e
      | Except.ok receiptsRlp =>
        Except.ok { BlockRlp := blockRlp, StateDiffRlp := stateDiffRlp,
                    ReceiptsRlp := receiptsRlp }
  else
    Except.ok { BlockRlp := [], StateDiffRlp := stateDiffRlp, ReceiptsRlp := [] }

/-- ProcResult: outcome of processStateDiff — the state after it (send may
have evicted subscribers), the error it returns to Loop, whether the builder
ran, whether send ran, whether the empty-check error was logged, and the
delivery logs. -/
structure ProcResult where
  state : ServiceState
  result : Except String Unit
  builderCalled : Bool
  sendInvoked : Bool
  emptyCheckWarned : Bool
  deliveries : List (Nat × Payload)
  quitAttempts : List Nat
  quitDelivered : List Nat
deriving DecidableEq, Repr

/-- procFail: the early-error returns of processStateDiff (builder, diff
encoding, or payload assembly failed): state untouched, nothing sent. -/
def procFail (s : ServiceState) (e : String) : ProcResult :=
  { state := s, result := Except.error e, builderCalled := true
    sendInvoked := false, emptyCheckWarned := false
    deliveries := [], quitAttempts := [], quitDelivered := [] }

/-- processStateDiff: build the diff, encode it, assemble the payload, check
it against the canonical empty encoding (an error there is only logged), and
send unless the check said empty. -/
def processStateDiff (env : Env) (s : ServiceState)
    (currentBlock parentBlock : Block) : ProcResult :=
  match env.BuildStateDiff parentBlock.root currentBlock.root
      currentBlock.number currentBlock.hash with
  | Except.error e => procFail s e
  | Except.ok stateDiff =>
    match env.encodeStateDiff stateDiff with
    | Except.error e => procFail s e
    | Except.ok stateDiffRlp =>
      match assemblePayload env s currentBlock stateDiffRlp with
      | Except.error e => procFail s e
      | Except.ok payload =>
        let check := isEmptyPayload env payload currentBlock
        if check.1 then
          { state := s, result := Except.ok (), builderCalled := true
            sendInvoked := false, emptyCheckWarned := check.2
            deliveries := [], quitAttempts := [], quitDelivered := [] }
        else
          let sr := send env s payload
          { state := { s with Subscriptions := sr.Subscriptions,
                              subscribers := sr.subscribers }
            result := Except.ok (), builderCalled := true
            sendInvoked := true, emptyCheckWarned := check.2
            deliveries := sr.deliveries, quitAttempts := sr.quitAttempts
            quitDelivered := sr.quitDelivered }

/-- LoopResult: effect of one chainEventCh iteration of Service.Loop. -/
structure LoopResult where
  state : ServiceState
  builderCalled : Bool
  sendInvoked : Bool
  emptyCheckWarned : Bool
  deliveries : List (Nat × Payload)
  quitAttempts : List Nat
  quitDelivered : List Nat
  procFailed : Bool
deriving DecidableEq, Repr

/-- noBroadcast: a loop iteration that did no diff work on the given state. -/
def noBroadcast (s : ServiceState) : LoopResult :=
  { state := s, builderCalled := false, sendInvoked := false
    emptyCheckWarned := false, deliveries := [], quitAttempts := []
    quitDelivered := [], procFailed := false }

/-- loopStep: the chainEvent case of Service.Loop. Skip everything when the
subscribers flag is 0; otherwise resolve the parent (cache hit on matching
hash, else lookup), unconditionally overwrite lastBlock, skip on a nil
parent, else run processStateDiff (its error is only logged). -/
def loopStep (env : Env) (s : ServiceState) (ev : ChainEvent) : LoopResult :=
  if s.subscribers = 0 then
    noBroadcast s
  else
    let currentBlock := ev.block
    let parentBlock : Option Block :=
      match s.lastBlock with
      | some lb =>
        if lb.hash = currentBlock.parentHash then some lb
        else env.getBlockByHash currentBlock.parentHash
      | none => env.getBlockByHash currentBlock.parentHash
    let s1 := { s with lastBlock := some currentBlock }
    match parentBlock with
    | none => noBroadcast s1
    | some pb =>
      let pr := processStateDiff env s1 currentBlock pb
      { state := pr.state, builderCalled := pr.builderCalled
        sendInvoked := pr.sendInvoked, emptyCheckWarned := pr.emptyCheckWarned
        deliveries := pr.deliveries, quitAttempts := pr.quitAttempts
        quitDelivered := pr.quitDelivered
        procFailed := match pr.result with
          | Except.error _ => true
          | Except.ok _ => false }

/-
Concrete fixtures used by witnesses and counterexamples.
-/

/-- env0: trivial collaborators — no parent lookup succeeds, the builder
fails, encoders return empty byte lists, every channel is ready. -/
def env0 : Env :=
  { getBlockByHash := fun _ => none
    BuildStateDiff := fun _ _ _ _ => Except.error "builder failure"
    encodeStateDiff := fun _ => Except.ok []
    encodeBlock := fun _ => Except.ok []
    getReceiptsByHash := fun _ => 0
    encodeReceipts := fun _ => Except.ok []
    payloadOk := fun _ => true
    quitOk := fun _ => true }

/-- b0: a concrete block. -/
def b0 : Block := { hash := 10, parentHash := 0, number := 1, root := 100 }

/-- b1: a concrete block whose declared parent hash differs from b0's hash. -/
def b1 : Block := { hash := 20, parentHash := 11, number := 2, root := 200 }

/-- sOne: a service state with exactly one subscriber (id 1, payload channel
101, quit channel 201) and the activity flag set. -/
def sOne : ServiceState :=
  { Subscriptions := [(1, { PayloadChan := 101, QuitChan := 201 })]
    subscribers := 1
    lastBlock := none
    StreamBlock := false
    quitClosed := false }

/-- sCache: no subscribers, flag 0, with b0 sitting in the last-block cache. -/
def sCache : ServiceState :=
  { Subscriptions := []
    subscribers := 0
    lastBlock := some b0
    StreamBlock := false
    quitClosed := false }

/-- envW: collaborators whose builder produces a diff with no account deltas,
so its encoding coincides with the canonical empty-diff encoding. -/
def envW : Env :=
  { env0 with
    BuildStateDiff := fun _ _ n h =>
      Except.ok { BlockNumber := n, BlockHash := h, accountDiffs := [] }
    encodeStateDiff := fun d =>
      Except.ok (d.BlockNumber :: d.BlockHash :: d.accountDiffs.map Prod.fst) }

/-- envC9: collaborators whose builder produces a non-empty diff and whose
encoder fails exactly on diffs with no account deltas, so the built diff
encodes fine but the canonical empty-diff encoding fails. -/
def envC9 : Env :=
  { env0 with
    BuildStateDiff := fun _ _ n h =>
      Except.ok { BlockNumber := n, BlockHash := h, accountDiffs := [(5, 5)] }
    encodeStateDiff := fun d =>
      if d.accountDiffs.isEmpty then Except.error "empty-diff encoding failed"
      else Except.ok [9] }

/-
Characterization lemmas for the fan-out and shutdown loops.
-/

/-- sendLoop keeps exactly the entries whose payload channel is ready. -/
theorem sendLoop_kept (env : Env) (payload : Payload) (l : List (Nat × Subscription)) :
    (sendLoop env payload l).kept = l.filter (fun e => env.payloadOk e.2.PayloadChan) := by
  induction l with
  | nil => rfl
  | cons hd tl ih =>
    obtain ⟨id, sub⟩ := hd
    by_cases h : env.payloadOk sub.PayloadChan <;>
      simp [sendLoop, h, ih]

/-- sendLoop delivers the payload exactly to the entries whose payload
channel is ready. -/
theorem sendLoop_deliveries (env : Env) (payload : Payload) (l : List (Nat × Subscription)) :
    (sendLoop env payload l).deliveries =
      (l.filter (fun e => env.payloadOk e.2.PayloadChan)).map (fun e => (e.1, payload)) := by
  induction l with
  | nil => rfl
  | cons hd tl ih =>
    obtain ⟨id, sub⟩ := hd
    by_cases h : env.payloadOk sub.PayloadChan <;>
      simp [sendLoop, h, ih]

/-- sendLoop attempts a quit signal exactly on the entries whose payload
channel is not ready. -/
theorem sendLoop_quitAttempts (env : Env) (payload : Payload) (l : List (Nat × Subscription)) :
    (sendLoop env payload l).quitAttempts =
      (l.filter (fun e => !env.payloadOk e.2.PayloadChan)).map Prod.fst := by
  induction l with
  | nil => rfl
  | cons hd tl ih =>
    obtain ⟨id, sub⟩ := hd
    by_cases h : env.payloadOk sub.PayloadChan <;>
      simp [sendLoop, h, ih]

/-- closeLoop attempts a quit signal on every entry, in registry order. -/
theorem closeLoop_fst (env : Env) (l : List (Nat × Subscription)) :
    (closeLoop env l).1 = l.map Prod.fst := by
  induction l with
  | nil => rfl
  | cons hd tl ih =>
    obtain ⟨id, sub⟩ := hd
    simp [closeLoop, ih]

/-- In an association list with pairwise-distinct keys, a key determines
its value. -/
theorem assoc_value_eq {l : List (Nat × Subscription)} (hnd : (l.map Prod.fst).Nodup)
    {id : Nat} {a b : Subscription} (ha : (id, a) ∈ l) (hb : (id, b) ∈ l) : a = b := by
  induction l with
  | nil => simp at ha
  | cons hd tl ih =>
    rw [List.map_cons, List.nodup_cons] at hnd
    rcases List.mem_cons.mp ha with h1 | h1 <;> rcases List.mem_cons.mp hb with h2 | h2
    · exact congrArg Prod.snd (h1.trans h2.symm)
    · exact absurd (List.mem_map_of_mem Prod.fst h2) (by rw [← h1] at hnd; exact hnd.1)
    · exact absurd (List.mem_map_of_mem Prod.fst h1) (by rw [← h2] at hnd; exact hnd.1)
    · exact ih hnd.2 h1 h2

/-- Any delivery recorded by send names a registered entry whose payload
channel was ready. -/
theorem send_deliveries_mem {env : Env} {s : ServiceState} {p : Payload} {id : Nat}
    {q : Payload} (h : (id, q) ∈ (send env s p).deliveries) :
    ∃ sub, (id, sub) ∈ s.Subscriptions ∧ env.payloadOk sub.PayloadChan = true := by
  simp [send, sendLoop_deliveries] at h
  rcases h with ⟨a, ⟨sub, hmem, hok⟩, rfl, -⟩
  exact ⟨sub, hmem, hok⟩

/-- assemblePayload always places the given diff bytes in the payload. -/
theorem assemblePayload_stateDiffRlp {env : Env} {s : ServiceState} {cur : Block}
    {bs : List Nat} {p : Payload} (h : assemblePayload env s cur bs = Except.ok p) :
    p.StateDiffRlp = bs := by
  unfold assemblePayload at h
  split at h
  · split at h
    · exact Except.noConfusion h
    · split at h
      · exact Except.noConfusion h
      · cases h; rfl
  · cases h; rfl

/-- processStateDiff never changes the last-block cache. -/
theorem processStateDiff_lastBlock (env : Env) (s : ServiceState) (cur par : Block) :
    (processStateDiff env s cur par).state.lastBlock = s.lastBlock := by
  unfold processStateDiff
  split
  · simp [procFail]
  · split
    · simp [procFail]
    · split
      · simp [procFail]
      · dsimp only
        split
        · rfl
        · rfl

/-
Claim theorems.
-/

/-- Claim C1: a chain event received while the subscribers flag is 0 is
discarded without invoking the external diff builder — the loop iteration
leaves the state unchanged, never calls BuildStateDiff, and delivers
nothing. -/
theorem C1_inactive_gate_skips_builder (env : Env) (s : ServiceState) (ev : ChainEvent)
    (h : s.subscribers = 0) :
    (loopStep env s ev).builderCalled = false ∧
    (loopStep env s ev).state = s ∧
    (loopStep env s ev).deliveries = [] := by
  simp [loopStep, h, noBroadcast]

/-- Witness for C1 at a fresh service and a concrete event. -/
theorem C1_inactive_gate_skips_builder_witness :
    (NewStateDiffService false).subscribers = 0 ∧
    ((loopStep env0 (NewStateDiffService false) { block := b1 }).builderCalled = false ∧
     (loopStep env0 (NewStateDiffService false) { block := b1 }).state =
       NewStateDiffService false ∧
     (loopStep env0 (NewStateDiffService false) { block := b1 }).deliveries = []) :=
  ⟨rfl, C1_inactive_gate_skips_builder env0 (NewStateDiffService false) { block := b1 } rfl⟩

/-- Claim C2: when the encoded diff is byte-for-byte the canonical
empty-diff encoding for the current block, delivery is suppressed — send is
not invoked, nothing is delivered, and the service state is untouched. -/
theorem C2_empty_diff_suppressed (env : Env) (s : ServiceState) (cur par : Block)
    (sd : StateDiff) (bs : List Nat)
    (hb : env.BuildStateDiff par.root cur.root cur.number cur.hash = Except.ok sd)
    (he : env.encodeStateDiff sd = Except.ok bs)
    (hq : getEmptyStateDiffRlpForBlock env cur = Except.ok bs) :
    (processStateDiff env s cur par).sendInvoked = false ∧
    (processStateDiff env s cur par).deliveries = [] ∧
    (processStateDiff env s cur par).state = s := by
  unfold processStateDiff
  rw [hb]
  dsimp only
  rw [he]
  dsimp only
  cases hap : assemblePayload env s cur bs with
  | error e => simp [procFail]
  | ok payload =>
    have hsd : payload.StateDiffRlp = bs := assemblePayload_stateDiffRlp hap
    have hck : isEmptyPayload env payload cur = (true, false) := by
      simp [isEmptyPayload, hq, hsd]
    simp [hck]

/-- Witness for C2: a builder that produces a diff with no account deltas,
whose encoding therefore equals the canonical empty encoding for b1. -/
theorem C2_empty_diff_suppressed_witness :
    envW.BuildStateDiff b0.root b1.root b1.number b1.hash =
      Except.ok { BlockNumber := 2, BlockHash := 20, accountDiffs := [] } ∧
    envW.encodeStateDiff { BlockNumber := 2, BlockHash := 20, accountDiffs := [] } =
      Except.ok [2, 20] ∧
    getEmptyStateDiffRlpForBlock envW b1 = Except.ok [2, 20] ∧
    ((processStateDiff envW sOne b1 b0).sendInvoked = false ∧
     (processStateDiff envW sOne b1 b0).deliveries = [] ∧
     (processStateDiff envW sOne b1 b0).state = sOne) :=
  ⟨rfl, rfl, rfl,
    C2_empty_diff_suppressed envW sOne b1 b0
      { BlockNumber := 2, BlockHash := 20, accountDiffs := [] } [2, 20] rfl rfl rfl⟩

/-- Claim C5 counterexample: with one registered subscriber and the flag
set, close empties the registry yet the subscribers flag stays 1 — the close
body never touches the flag, so the Activity Gate is not cleared as the
claim states. -/
theorem C5_close_leaves_gate_set :
    (close env0 sOne).Subscriptions = [] ∧ (close env0 sOne).subscribers = 1 :=
  ⟨rfl, rfl⟩

/-- Claim C5 (amended): close attempts a non-blocking termination signal on
every registered subscriber's control sink, one attempt per registry entry
in registry order, and unconditionally empties the registry — but it leaves
the subscribers flag exactly as it was (the Activity Gate is not cleared by
close itself). -/
theorem C5_close_signals_once_and_empties (env : Env) (s : ServiceState) :
    (close env s).quitAttempts = s.Subscriptions.map Prod.fst ∧
    (close env s).Subscriptions = [] ∧
    (close env s).subscribers = s.subscribers :=
  ⟨closeLoop_fst env s.Subscriptions, rfl, rfl⟩

/-- Claim C6 (code bug): Stop is not idempotent — the second Stop closes the
already-closed quit channel, which panics in Go (modelled as the error
outcome of the channel close). -/
theorem C6_second_stop_panics :
    Except.bind (Stop (NewStateDiffService false)) Stop =
      Except.error "close of closed channel" := rfl

/-- Claim C8 counterexample: with zero subscribers the dispatch loop
discards the event before the lastBlock assignment, so the cache keeps the
previous block instead of being overwritten with the event's block. -/
theorem C8_cache_not_overwritten_when_inactive :
    (loopStep env0 sCache { block := b1 }).state.lastBlock = some b0 ∧ b0 ≠ b1 :=
  ⟨rfl, by decide⟩

/-- Claim C8 (amended): for every chain event received while the subscriber
flag is non-zero, the last-block cache is overwritten with the event's
block, regardless of the processing outcome (unresolved parent, builder or
encoding failure, suppression, or broadcast). -/
theorem C8_cache_overwritten_when_active (env : Env) (s : ServiceState)
    (ev : ChainEvent) (h : ¬ s.subscribers = 0) :
    (loopStep env s ev).state.lastBlock = some ev.block := by
  unfold loopStep
  rw [if_neg h]
  dsimp only
  split
  · rfl
  · exact processStateDiff_lastBlock env _ ev.block _

/-- Witness for C8 (amended) at a state with one subscriber: the parent
lookup fails, yet the cache is overwritten. -/
theorem C8_cache_overwritten_when_active_witness :
    ¬ sOne.subscribers = 0 ∧
    (loopStep env0 sOne { block := b1 }).state.lastBlock = some b1 :=
  ⟨by decide, C8_cache_overwritten_when_active env0 sOne { block := b1 } (by decide)⟩

/-- Claim C9 counterexample: when computing the canonical empty-diff
encoding fails, the code logs the warning but still broadcasts — subscriber
1 receives the payload, contradicting "dropped without delivery to any
subscriber". -/
theorem C9_check_failure_still_delivers :
    (processStateDiff envC9 sOne b1 b0).emptyCheckWarned = true ∧
    (processStateDiff envC9 sOne b1 b0).deliveries =
      [(1, { BlockRlp := [], StateDiffRlp := [9], ReceiptsRlp := [] })] :=
  ⟨rfl, rfl⟩

/-- Claim C9 (amended): if the empty-diff detection check itself fails, the
failure is logged, but the payload is treated as non-empty and is still
broadcast to subscribers; processStateDiff reports success so the loop
continues. -/
theorem C9_check_failure_logged_then_sent (env : Env) (s : ServiceState)
    (cur par : Block) (sd : StateDiff) (bs : List Nat) (p : Payload) (e : String)
    (hb : env.BuildStateDiff par.root cur.root cur.number cur.hash = Except.ok sd)
    (he : env.encodeStateDiff sd = Except.ok bs)
    (hp : assemblePayload env s cur bs = Except.ok p)
    (hq : getEmptyStateDiffRlpForBlock env cur = Except.error e) :
    (processStateDiff env s cur par).emptyCheckWarned = true ∧
    (processStateDiff env s cur par).sendInvoked = true ∧
    (processStateDiff env s cur par).result = Except.ok () := by
  unfold processStateDiff
  rw [hb]
  dsimp only
  rw [he]
  dsimp only
  rw [hp]
  dsimp only
  have hck : isEmptyPayload env p cur = (false, true) := by
    simp [isEmptyPayload, hq]
  simp [hck]

/-- Witness for C9 (amended) with the concrete failing encoder. -/
theorem C9_check_failure_logged_then_sent_witness :
    envC9.BuildStateDiff b0.root b1.root b1.number b1.hash =
      Except.ok { BlockNumber := 2, BlockHash := 20, accountDiffs := [(5, 5)] } ∧
    envC9.encodeStateDiff { BlockNumber := 2, BlockHash := 20, accountDiffs := [(5, 5)] } =
      Except.ok [9] ∧
    assemblePayload envC9 sOne b1 [9] =
      Except.ok { BlockRlp := [], StateDiffRlp := [9], ReceiptsRlp := [] } ∧
    getEmptyStateDiffRlpForBlock envC9 b1 = Except.error "empty-diff encoding failed" ∧
    ((processStateDiff envC9 sOne b1 b0).emptyCheckWarned = true ∧
     (processStateDiff envC9 sOne b1 b0).sendInvoked = true ∧
     (processStateDiff envC9 sOne b1 b0).result = Except.ok ()) :=
  ⟨rfl, rfl, rfl, rfl,
    C9_check_failure_logged_then_sent envC9 sOne b1 b0
      { BlockNumber := 2, BlockHash := 20, accountDiffs := [(5, 5)] } [9]
      { BlockRlp := [], StateDiffRlp := [9], ReceiptsRlp := [] }
      "empty-diff encoding failed" rfl rfl rfl rfl⟩

/-- Claim C10 (code bug): Unsubscribe with an id absent from the registry
returns its not-found error while the mutex taken on entry is still held —
the early error return skips the Unlock that every other path performs. -/
theorem C10_unsubscribe_not_found_keeps_lock :
    (Unsubscribe sOne 2).lockHeldAtReturn = true ∧
    (Unsubscribe sOne 2).result =
      Except.error "cannot unsubscribe; subscription for id does not exist" :=
  ⟨rfl, rfl⟩

/-- env3: payload channel 101 is permanently full; every other channel is
ready. -/
def env3 : Env := { env0 with payloadOk := fun c => c != 101 }

/-- sTwo: two subscribers, ids 1 and 2, with distinct channels. -/
def sTwo : ServiceState :=
  { Subscriptions := [(1, { PayloadChan := 101, QuitChan := 201 }),
                      (2, { PayloadChan := 102, QuitChan := 202 })]
    subscribers := 1
    lastBlock := none
    StreamBlock := false
    quitClosed := false }

/-- pW: a concrete payload. -/
def pW : Payload := { BlockRlp := [], StateDiffRlp := [1], ReceiptsRlp := [] }

/-- Claim C3: during one broadcast, each registered subscriber whose payload
channel is not ready gets exactly one quit-signal attempt, is removed from
the registry within that same send call regardless of whether the quit
signal landed, receives no delivery in that call, and receives no delivery
from any later broadcast run on the resulting registry. -/
theorem C3_full_sink_evicted (env : Env) (s : ServiceState) (p : Payload)
    (id : Nat) (sub : Subscription)
    (hnd : (s.Subscriptions.map Prod.fst).Nodup)
    (hmem : (id, sub) ∈ s.Subscriptions)
    (hfull : env.payloadOk sub.PayloadChan = false) :
    (send env s p).quitAttempts.count id = 1 ∧
    id ∉ (send env s p).Subscriptions.map Prod.fst ∧
    (∀ q : Payload, (id, q) ∉ (send env s p).deliveries) ∧
    (∀ env2 : Env, ∀ s2 : ServiceState, ∀ p2 q : Payload,
      s2.Subscriptions = (send env s p).Subscriptions →
      (id, q) ∉ (send env2 s2 p2).deliveries) := by
  have hkept : (send env s p).Subscriptions =
      s.Subscriptions.filter (fun e => env.payloadOk e.2.PayloadChan) := by
    simp [send, sendLoop_kept]
  have hnotin : id ∉ (s.Subscriptions.filter
      (fun e => env.payloadOk e.2.PayloadChan)).map Prod.fst := by
    intro hin
    obtain ⟨e, he, h1⟩ := List.mem_map.mp hin
    obtain ⟨hel, hok⟩ := List.mem_filter.mp he
    have he2 : (id, e.2) ∈ s.Subscriptions := by
      rw [← h1]
      simpa using hel
    have hes : e.2 = sub := assoc_value_eq hnd he2 hmem
    rw [hes, hfull] at hok
    cases hok
  refine ⟨?_, ?_, ?_, ?_⟩
  · have hqa : (send env s p).quitAttempts =
        (s.Subscriptions.filter (fun e => !env.payloadOk e.2.PayloadChan)).map Prod.fst := by
      simp [send, sendLoop_quitAttempts]
    rw [hqa]
    have hsub : List.Sublist
        ((s.Subscriptions.filter (fun e => !env.payloadOk e.2.PayloadChan)).map Prod.fst)
        (s.Subscriptions.map Prod.fst) :=
      List.Sublist.map Prod.fst (List.filter_sublist _)
    have hmem2 : id ∈ (s.Subscriptions.filter
        (fun e => !env.payloadOk e.2.PayloadChan)).map Prod.fst :=
      List.mem_map.mpr ⟨(id, sub), List.mem_filter.mpr ⟨hmem, by simp [hfull]⟩, rfl⟩
    exact List.count_eq_one_of_mem (hsub.nodup hnd) hmem2
  · rw [hkept]
    exact hnotin
  · intro q hq
    obtain ⟨sub2, hmem2, hok2⟩ := send_deliveries_mem hq
    have hs2 : sub2 = sub := assoc_value_eq hnd hmem2 hmem
    rw [hs2, hfull] at hok2
    cases hok2
  · intro env2 s2 p2 q hs2 hq
    obtain ⟨sub2, hmem2, -⟩ := send_deliveries_mem hq
    rw [hs2, hkept] at hmem2
    exact hnotin (List.mem_map_of_mem Prod.fst hmem2)

/-- Witness for C3: subscriber 1's payload channel 101 is always full; after
one broadcast it got one quit attempt, is gone from the registry, and
received nothing. -/
theorem C3_full_sink_evicted_witness :
    (sTwo.Subscriptions.map Prod.fst).Nodup ∧
    (1, ({ PayloadChan := 101, QuitChan := 201 } : Subscription)) ∈ sTwo.Subscriptions ∧
    env3.payloadOk 101 = false ∧
    ((send env3 sTwo pW).quitAttempts.count 1 = 1 ∧
     1 ∉ (send env3 sTwo pW).Subscriptions.map Prod.fst ∧
     (∀ q : Payload, (1, q) ∉ (send env3 sTwo pW).deliveries) ∧
     (∀ env2 : Env, ∀ s2 : ServiceState, ∀ p2 q : Payload,
       s2.Subscriptions = (send env3 sTwo pW).Subscriptions →
       (1, q) ∉ (send env2 s2 p2).deliveries)) :=
  ⟨by decide, by decide, by decide,
    C3_full_sink_evicted env3 sTwo pW 1 { PayloadChan := 101, QuitChan := 201 }
      (by decide) (by decide) (by decide)⟩

/-- gateInv: the Activity Gate invariant — the subscribers flag is 0 when
the registry is empty and 1 when it is not. -/
def gateInv (s : ServiceState) : Prop :=
  s.subscribers = if s.Subscriptions.isEmpty then 0 else 1

instance gateInvDec (s : ServiceState) : Decidable (gateInv s) :=
  decidable_of_iff (s.subscribers = if s.Subscriptions.isEmpty then 0 else 1) Iff.rfl

/-- From the flag-mirrors-emptiness equation, the flag is 1 exactly for a
non-empty registry. -/
theorem flagMirror_iff {flag : Nat} {l : List (Nat × Subscription)}
    (h : flag = if l.isEmpty then 0 else 1) : flag = 1 ↔ l ≠ [] := by
  cases l with
  | nil => simp at h; simp [h]
  | cons a t => simp at h; simp [h]

/-- Claim C4: from any state where the subscribers flag mirrors registry
emptiness, Subscribe, Unsubscribe and send each re-establish that the flag
is 1 exactly when the subscription map is non-empty; in particular a
Subscribe on an empty registry activates the gate, and an Unsubscribe or a
broadcast-driven eviction that empties the registry deactivates it. -/
theorem C4_gate_tracks_registry (s : ServiceState) (hinv : gateInv s) :
    (∀ id sub, gateInv (Subscribe s id sub) ∧ (Subscribe s id sub).subscribers = 1) ∧
    (∀ id, gateInv (Unsubscribe s id).state ∧
      ((Unsubscribe s id).state.subscribers = 1 ↔
        (Unsubscribe s id).state.Subscriptions ≠ [])) ∧
    (∀ env p, (send env s p).subscribers =
        (if (send env s p).Subscriptions.isEmpty then 0 else 1) ∧
      ((send env s p).subscribers = 1 ↔ (send env s p).Subscriptions ≠ [])) := by
  unfold gateInv at hinv
  refine ⟨?_, ?_, ?_⟩
  · intro id sub
    have h1 : (Subscribe s id sub).subscribers = 1 := by
      cases hls : s.Subscriptions with
      | nil => rw [hls] at hinv; simp at hinv; simp [Subscribe, hinv]
      | cons a t => rw [hls] at hinv; simp at hinv; simp [Subscribe, hinv]
    refine ⟨?_, h1⟩
    unfold gateInv
    rw [h1]
    simp [Subscribe]
  · intro id
    have key : gateInv (Unsubscribe s id).state := by
      unfold gateInv Unsubscribe
      dsimp only
      by_cases hf : (s.Subscriptions.find? (fun e => e.1 == id)).isSome
      · rw [if_pos hf]
        have hne : s.Subscriptions.isEmpty = false := by
          cases hls : s.Subscriptions with
          | nil => rw [hls] at hf; simp at hf
          | cons a t => simp [hls]
        rw [hne] at hinv
        simp at hinv
        by_cases hse : (s.Subscriptions.filter (fun e => e.1 != id)).isEmpty
        · simp [hse, hinv]
        · simp [hse, hinv]
      · rw [if_neg hf]
        exact hinv
    exact ⟨key, flagMirror_iff key⟩
  · intro env p
    have hkept : (send env s p).Subscriptions =
        s.Subscriptions.filter (fun e => env.payloadOk e.2.PayloadChan) := by
      simp [send, sendLoop_kept]
    have key : (send env s p).subscribers =
        if (send env s p).Subscriptions.isEmpty then 0 else 1 := by
      have hsubs : (send env s p).subscribers =
          if (sendLoop env p s.Subscriptions).kept.isEmpty
          then (if s.subscribers = 1 then 0 else s.subscribers)
          else s.subscribers := rfl
      rw [hsubs, hkept, sendLoop_kept]
      by_cases hk : (s.Subscriptions.filter (fun e => env.payloadOk e.2.PayloadChan)).isEmpty
      · rw [if_pos hk, if_pos hk]
        cases hls : s.Subscriptions with
        | nil => rw [hls] at hinv; simp at hinv; simp [hinv]
        | cons a t => rw [hls] at hinv; simp at hinv; simp [hinv]
      · rw [if_neg hk, if_neg hk]
        have hne : s.Subscriptions ≠ [] := by
          intro h0
          rw [h0] at hk
          simp at hk
        cases hls : s.Subscriptions with
        | nil => exact absurd hls hne
        | cons a t => rw [hls] at hinv; simp at hinv; exact hinv
    exact ⟨key, flagMirror_iff key⟩

/-- Witness for C4: the invariant holds at a fresh service, and subscribing
to the empty registry sets the flag to 1. -/
theorem C4_gate_tracks_registry_witness :
    gateInv (NewStateDiffService false) ∧
    (gateInv (Subscribe (NewStateDiffService false) 1
        { PayloadChan := 101, QuitChan := 201 }) ∧
     (Subscribe (NewStateDiffService false) 1
        { PayloadChan := 101, QuitChan := 201 }).subscribers = 1) :=
  ⟨by decide,
    (C4_gate_tracks_registry (NewStateDiffService false) (by decide)).1 1
      { PayloadChan := 101, QuitChan := 201 }⟩

/-- Claim C7: Unsubscribe with an absent id returns the not-found error and
leaves the whole state (registry and flag) unchanged; with a present id it
returns success and removes exactly that entry, keeping every other entry. -/
theorem C7_unsubscribe_absent_present (s : ServiceState) (id : Nat) :
    (s.Subscriptions.find? (fun e => e.1 == id) = none →
      (Unsubscribe s id).state = s ∧
      (Unsubscribe s id).result =
        Except.error "cannot unsubscribe; subscription for id does not exist") ∧
    (∀ sub : Subscription, (id, sub) ∈ s.Subscriptions →
      (Unsubscribe s id).result = Except.ok () ∧
      ∀ e : Nat × Subscription,
        e ∈ (Unsubscribe s id).state.Subscriptions ↔ e ∈ s.Subscriptions ∧ e.1 ≠ id) := by
  constructor
  · intro h
    simp [Unsubscribe, h]
  · intro sub hmem
    have hfind : (s.Subscriptions.find? (fun e => e.1 == id)).isSome := by
      rw [List.find?_isSome]
      exact ⟨(id, sub), hmem, by simp⟩
    constructor
    · simp [Unsubscribe, hfind]
    · intro e
      simp [Unsubscribe, hfind, List.mem_filter]

/-- Witness for C7: id 2 is absent from sOne (state unchanged, error), id 1
is present (success). -/
theorem C7_unsubscribe_absent_present_witness :
    (sOne.Subscriptions.find? (fun e => e.1 == 2) = none ∧
     (Unsubscribe sOne 2).state = sOne) ∧
    ((1, ({ PayloadChan := 101, QuitChan := 201 } : Subscription)) ∈ sOne.Subscriptions ∧
     (Unsubscribe sOne 1).result = Except.ok ()) :=
  ⟨⟨by decide, ((C7_unsubscribe_absent_present sOne 2).1 (by decide)).1⟩,
   ⟨by decide, ((C7_unsubscribe_absent_present sOne 1).2
      { PayloadChan := 101, QuitChan := 201 } (by decide)).1⟩⟩

end Statediff
